import Mathlib

/-!
Shallow embedding of the ShopSavvy Data API Go SDK (package `shopsavvy`)
and proofs about its observable behaviour.

The embedding follows the Go source:
  * the client file (`NewClient`, endpoint methods, `handleErrorResponse`),
  * the error types file (`APIError`, `AuthenticationError`, `NotFoundError`,
    `ValidationError`, `RateLimitError`, `NetworkError`, `TimeoutError`),
  * the response/payload types file (`APIMeta`, `APIResponse` with the
    `CreditsUsed` / `CreditsRemaining` accessors).

Machine integers are modelled as `Nat`/`Int` (no overflow is reachable in
this code: status codes and credit counts are small), `time.Duration` as
nanoseconds (`Nat`), Go maps built by literal-then-conditional-insert as
association lists in insertion order, and fallible calls as `Except`.
-/

namespace ShopSavvy

/-- Reason phrases of Go's `net/http.StatusText`, a standard-library
primitive used by `handleErrorResponse` via
`fmt.Sprintf("HTTP %d: %s", statusCode, http.StatusText(statusCode))`.
Unknown codes yield the empty string, as in Go. -/
def statusText (code : Nat) : String :=
  if code = 100 then "Continue"
  else if code = 101 then "Switching Protocols"
  else if code = 102 then "Processing"
  else if code = 103 then "Early Hints"
  else if code = 200 then "OK"
  else if code = 201 then "Created"
  else if code = 202 then "Accepted"
  else if code = 203 then "Non-Authoritative Information"
  else if code = 204 then "No Content"
  else if code = 205 then "Reset Content"
  else if code = 206 then "Partial Content"
  else if code = 207 then "Multi-Status"
  else if code = 208 then "Already Reported"
  else if code = 226 then "IM Used"
  else if code = 300 then "Multiple Choices"
  else if code = 301 then "Moved Permanently"
  else if code = 302 then "Found"
  else if code = 303 then "See Other"
  else if code = 304 then "Not Modified"
  else if code = 305 then "Use Proxy"
  else if code = 307 then "Temporary Redirect"
  else if code = 308 then "Permanent Redirect"
  else if code = 400 then "Bad Request"
  else if code = 401 then "Unauthorized"
  else if code = 402 then "Payment Required"
  else if code = 403 then "Forbidden"
  else if code = 404 then "Not Found"
  else if code = 405 then "Method Not Allowed"
  else if code = 406 then "Not Acceptable"
  else if code = 407 then "Proxy Authentication Required"
  else if code = 408 then "Request Timeout"
  else if code = 409 then "Conflict"
  else if code = 410 then "Gone"
  else if code = 411 then "Length Required"
  else if code = 412 then "Precondition Failed"
  else if code = 413 then "Request Entity Too Large"
  else if code = 414 then "Request URI Too Long"
  else if code = 415 then "Unsupported Media Type"
  else if code = 416 then "Requested Range Not Satisfiable"
  else if code = 417 then "Expectation Failed"
  else if code = 418 then "I\x27m a teapot"
  else if code = 421 then "Misdirected Request"
  else if code = 422 then "Unprocessable Entity"
  else if code = 423 then "Locked"
  else if code = 424 then "Failed Dependency"
  else if code = 425 then "Too Early"
  else if code = 426 then "Upgrade Required"
  else if code = 428 then "Precondition Required"
  else if code = 429 then "Too Many Requests"
  else if code = 431 then "Request Header Fields Too Large"
  else if code = 451 then "Unavailable For Legal Reasons"
  else if code = 500 then "Internal Server Error"
  else if code = 501 then "Not Implemented"
  else if code = 502 then "Bad Gateway"
  else if code = 503 then "Service Unavailable"
  else if code = 504 then "Gateway Timeout"
  else if code = 505 then "HTTP Version Not Supported"
  else if code = 506 then "Variant Also Negotiates"
  else if code = 507 then "Insufficient Storage"
  else if code = 508 then "Loop Detected"
  else if code = 510 then "Not Extended"
  else if code = 511 then "Network Authentication Required"
  else ""

/-- `APIErrorResponse` from the types file: the parsed JSON error body,
carrying the `error` field. -/
structure APIErrorResponse where
  error : String
  deriving Repr, DecidableEq

/-- The error values the SDK can hand to a caller.  One constructor per Go
error type of the errors file, plus:
  * `errorString` for the plain `fmt.Errorf` values returned by `NewClient`;
  * `transportError` for an error coming out of the underlying HTTP library
    when no HTTP response was obtained (the Go methods return that error
    value unchanged); its first field records whether the failure was a
    deadline-exceeded (timeout) failure. -/
inductive GoError where
  | errorString (message : String)
  | apiError (message : String) (statusCode : Nat)
  | authenticationError (message : String) (statusCode : Nat)
  | notFoundError (message : String) (statusCode : Nat)
  | validationError (message : String) (statusCode : Nat)
  | rateLimitError (message : String) (statusCode : Nat)
  | networkError (message : String)
  | timeoutError (message : String)
  | transportError (deadlineExceeded : Bool) (message : String)
  deriving Repr, DecidableEq

/-- The discriminated kind of a `GoError`. -/
inductive ErrorKind where
  | plain
  | api
  | authentication
  | notFound
  | validation
  | rateLimit
  | network
  | timeout
  | transport
  deriving Repr, DecidableEq

/-- Kind discriminator: which Go error type a `GoError` value is. -/
def GoError.kind : GoError → ErrorKind
  | .errorString _ => .plain
  | .apiError _ _ => .api
  | .authenticationError _ _ => .authentication
  | .notFoundError _ _ => .notFound
  | .validationError _ _ => .validation
  | .rateLimitError _ _ => .rateLimit
  | .networkError _ => .network
  | .timeoutError _ => .timeout
  | .transportError _ _ => .transport

/-- The `Message` field of each Go error type (for `errorString` and
`transportError`, the error text itself). -/
def GoError.message : GoError → String
  | .errorString m => m
  | .apiError m _ => m
  | .authenticationError m _ => m
  | .notFoundError m _ => m
  | .validationError m _ => m
  | .rateLimitError m _ => m
  | .networkError m => m
  | .timeoutError m => m
  | .transportError _ m => m

/-- The `StatusCode` field, for the error types that carry one. -/
def GoError.statusCode : GoError → Option Nat
  | .apiError _ s => some s
  | .authenticationError _ s => some s
  | .notFoundError _ s => some s
  | .validationError _ s => some s
  | .rateLimitError _ s => some s
  | _ => none

/-- `handleErrorResponse` from the client file: converts an HTTP error
response (status code plus the error body as parsed by the HTTP library
into `APIErrorResponse`, `none` when the body was absent or unparsable)
into a typed Go error.  The Go `switch` on the status code is rendered as
a chain of equality tests. -/
def handleErrorResponse (statusCode : Nat)
    (errorBody : Option APIErrorResponse) : GoError :=
  let errorMsg :=
    match errorBody with
    | some errorResp =>
        if errorResp.error ≠ "" then errorResp.error
        else "HTTP " ++ toString statusCode ++ ": " ++ statusText statusCode
    | none => "HTTP " ++ toString statusCode ++ ": " ++ statusText statusCode
  if statusCode = 401 then
    .authenticationError "Authentication failed. Check your API key." statusCode
  else if statusCode = 404 then
    .notFoundError "Resource not found" statusCode
  else if statusCode = 422 then
    .validationError "Request validation failed. Check your parameters." statusCode
  else if statusCode = 429 then
    .rateLimitError "Rate limit exceeded. Please slow down your requests." statusCode
  else
    .apiError errorMsg statusCode

/-! ## Client construction -/

/-- Character class `[a-zA-Z0-9]` of the API-key regular expression
(`Char.isAlphanum` is exactly `a`-`z`, `A`-`Z`, `0`-`9`). -/
def isAlphanumChar (c : Char) : Bool :=
  c.isAlphanum

/-- Suffix part `[a-zA-Z0-9]+$` of the API-key regular expression: one or
more alphanumeric characters and nothing else. -/
def matchKeyTail (cs : List Char) : Bool :=
  !cs.isEmpty && cs.all isAlphanumChar

/-- The anchored regular expression of `NewClient`, transcribed over the
character list of the key string. -/
def apiKeyMatchesChars : List Char → Bool
  | 's' :: 's' :: '_' :: 'l' :: 'i' :: 'v' :: 'e' :: '_' :: tail => matchKeyTail tail
  | 's' :: 's' :: '_' :: 't' :: 'e' :: 's' :: 't' :: '_' :: tail => matchKeyTail tail
  | _ => false

/-- Whether an API key matches the regular expression of `NewClient`. -/
def apiKeyMatches (s : String) : Bool :=
  apiKeyMatchesChars s.data

/-- One second of Go's `time.Duration`, in nanoseconds. -/
def timeSecond : Nat := 1000000000

/-- `Config` from the client file.  `Timeout` is in nanoseconds
(Go `time.Duration`). -/
structure Config where
  APIKey : String
  BaseURL : String
  Timeout : Nat
  deriving Repr, DecidableEq

/-- `Option` from the client file (a functional option mutating the
configuration); named `ClientOption` here because `Option` is taken. -/
abbrev ClientOption := Config → Config

/-- `WithBaseURL` from the client file. -/
def WithBaseURL (baseURL : String) : ClientOption :=
  fun c => { c with BaseURL := baseURL }

/-- `WithTimeout` from the client file. -/
def WithTimeout (timeout : Nat) : ClientOption :=
  fun c => { c with Timeout := timeout }

/-- `Client` from the client file: the configuration it was built with.
The embedded HTTP client is pure state derived from this configuration
(base URL, timeout, headers), so it is not duplicated here. -/
structure Client where
  config : Config
  deriving Repr, DecidableEq

/-- `NewClient` from the client file: builds the default configuration,
applies the options in order, validates the API key (empty check, then the
regular expression), and only then returns a client.  Both failure paths
return a plain `fmt.Errorf` error (`GoError.errorString`); construction
performs no HTTP request (its result is a pure function of the key and the
options). -/
def NewClient (apiKey : String) (options : List ClientOption) :
    Except GoError Client :=
  let config : Config :=
    { APIKey := apiKey
      BaseURL := "https://api.shopsavvy.com/v1"
      Timeout := 30 * timeSecond }
  let config := options.foldl (fun c option => option c) config
  if config.APIKey = "" then
    .error (.errorString "API key is required. Get one at https://shopsavvy.com/data")
  else if !apiKeyMatches config.APIKey then
    .error (.errorString "invalid API key format. API keys should start with ss_live_ or ss_test_")
  else
    .ok { config := config }

/-! ## Requests and endpoint methods -/

/-- HTTP methods used by the SDK. -/
inductive HTTPMethod where
  | get
  | post
  | delete
  deriving Repr, DecidableEq

/-- The single outbound HTTP request an endpoint method constructs:
verb, path relative to the base URL, query parameters, and JSON body
fields.  Go builds the parameters as a `map[string]string` literal
followed by conditional inserts; that is rendered as an association list
in insertion order (all keys are distinct). -/
structure Request where
  method : HTTPMethod
  path : String
  queryParams : List (String × String)
  body : List (String × String)
  deriving Repr, DecidableEq

/-- The `format ...string` variadic parameter: passed through when the
first element is present and non-empty. -/
def formatParam (format : List String) : List (String × String) :=
  match format with
  | f :: _ => if f ≠ "" then [("format", f)] else []
  | [] => []

/-- Request constructed by `GetProductDetails`. -/
def GetProductDetailsRequest (identifier : String) (format : List String) :
    Request :=
  { method := .get
    path := "/products"
    queryParams := [("ids", identifier)] ++ formatParam format
    body := [] }

/-- Request constructed by `GetProductDetailsBatch`:
`ids` is `strings.Join(identifiers, ",")`. -/
def GetProductDetailsBatchRequest (identifiers : List String)
    (format : List String) : Request :=
  { method := .get
    path := "/products"
    queryParams := [("ids", String.intercalate "," identifiers)] ++ formatParam format
    body := [] }

/-- Request constructed by `GetCurrentOffersBatch`:
`ids` is `strings.Join(identifiers, ",")`, plus the optional retailer
filter and format hint. -/
def GetCurrentOffersBatchRequest (identifiers : List String)
    (retailer : String) (format : List String) : Request :=
  { method := .get
    path := "/products/offers"
    queryParams := [("ids", String.intercalate "," identifiers)]
      ++ (if retailer ≠ "" then [("retailer", retailer)] else [])
      ++ formatParam format
    body := [] }

/-- Body constructed by `ScheduleProductMonitoringBatch`:
`identifiers` is `strings.Join(identifiers, ",")`. -/
def ScheduleProductMonitoringBatchRequest (identifiers : List String)
    (frequency : String) (retailer : List String) : Request :=
  { method := .post
    path := "/products/schedule"
    queryParams := []
    body := [("identifiers", String.intercalate "," identifiers),
             ("frequency", frequency)]
      ++ (match retailer with
          | r :: _ => if r ≠ "" then [("retailer", r)] else []
          | [] => []) }

/-- Body constructed by `RemoveProductsFromSchedule`:
`identifiers` is `strings.Join(identifiers, ",")`. -/
def RemoveProductsFromScheduleRequest (identifiers : List String) : Request :=
  { method := .delete
    path := "/products/schedule"
    queryParams := []
    body := [("identifiers", String.intercalate "," identifiers)] }

/-- Outcome of handing one request to the underlying HTTP library:
either an HTTP response (status, payload parsed into the result type, and
the error body parsed into `APIErrorResponse` when available), or a
transport-layer failure with no HTTP response (`deadlineExceeded` marks a
timeout failure). -/
inductive TransportOutcome (β : Type) where
  | response (status : Nat) (result : β) (errorBody : Option APIErrorResponse)
  | failure (deadlineExceeded : Bool) (message : String)

/-- Executing one request as the SDK's HTTP client is configured to:
a transport failure is returned to the caller unchanged (as the library's
own error value), and the `OnAfterResponse` hook registered by `NewClient`
turns every error response (the library treats status > 399 as an error)
into `handleErrorResponse`. -/
def clientExecute {β : Type} (outcome : TransportOutcome β) :
    Except GoError β :=
  match outcome with
  | .failure deadlineExceeded message =>
      .error (.transportError deadlineExceeded message)
  | .response status result errorBody =>
      if status > 399 then .error (handleErrorResponse status errorBody)
      else .ok result

/-! ## Response envelope and payload types (part_001 variant) -/

/-- `APIMeta` from the response types file. -/
structure APIMeta where
  CreditsUsed : Int
  CreditsRemaining : Int
  RateLimitRemaining : Option Int
  deriving Repr, DecidableEq

/-- `APIResponse` from the response types file: the generic envelope with
the optional `Meta` object (`nil` modelled as `none`). -/
structure APIResponse (T : Type) where
  Success : Bool
  Data : T
  Message : String
  Meta : Option APIMeta

/-- The `CreditsUsed` accessor method on `APIResponse`: reads the meta
object, guarding against an absent (`nil`) `Meta`. -/
def APIResponse.CreditsUsed {T : Type} (r : APIResponse T) : Int :=
  match r.Meta with
  | some meta => meta.CreditsUsed
  | none => 0

/-- The `CreditsRemaining` accessor method on `APIResponse`: reads the
meta object, guarding against an absent (`nil`) `Meta`. -/
def APIResponse.CreditsRemaining {T : Type} (r : APIResponse T) : Int :=
  match r.Meta with
  | some meta => meta.CreditsRemaining
  | none => 0

/-- `ProductDetails` from the response types file. -/
structure ProductDetails where
  Title : String
  ShopSavvy : String
  Brand : Option String
  Category : Option String
  Images : List String
  Barcode : Option String
  Amazon : Option String
  Model : Option String
  MPN : Option String
  Color : Option String
  deriving Repr, DecidableEq

/-- `GetProductDetails` from the client file, as a function of the
transport: it builds its request, issues it once, and returns either the
deserialized envelope or the error produced by `clientExecute` (the raw
transport error, or the `handleErrorResponse` error from the hook),
unchanged. -/
def GetProductDetails (identifier : String) (format : List String)
    (transport : Request → TransportOutcome (APIResponse (List ProductDetails))) :
    Except GoError (APIResponse (List ProductDetails)) :=
  clientExecute (transport (GetProductDetailsRequest identifier format))

/-- The kind of the error a method call surfaced, when it failed. -/
def resultErrorKind {β : Type} : Except GoError β → Option ErrorKind
  | .error e => some e.kind
  | .ok _ => none

/-! ## Theorems -/

/-- Helper: `handleErrorResponse` never builds a network or timeout error
(no branch of its status switch mentions those types). -/
lemma handleErrorResponse_kind_not_transportish (statusCode : Nat)
    (errorBody : Option APIErrorResponse) :
    (handleErrorResponse statusCode errorBody).kind ≠ ErrorKind.network ∧
    (handleErrorResponse statusCode errorBody).kind ≠ ErrorKind.timeout := by
  unfold handleErrorResponse
  split_ifs <;> simp [GoError.kind]

/-- C1: for every failed (non-2xx) HTTP response, the error-kind mapping
follows the status code alone — 401 with any body yields an authentication
error, 404 a not-found error, 422 a validation error, 429 a rate-limit
error, and any other status a generic API error — every produced error
carries that status code, and exactly one kind is produced per failed
call (the mapping is a total function into a single discriminated kind). -/
theorem handleErrorResponse_kind_follows_status (statusCode : Nat)
    (errorBody : Option APIErrorResponse)
    (hfailed : ¬ (200 ≤ statusCode ∧ statusCode ≤ 299)) :
    (handleErrorResponse statusCode errorBody).kind =
      (if statusCode = 401 then ErrorKind.authentication
       else if statusCode = 404 then ErrorKind.notFound
       else if statusCode = 422 then ErrorKind.validation
       else if statusCode = 429 then ErrorKind.rateLimit
       else ErrorKind.api) ∧
    (handleErrorResponse statusCode errorBody).statusCode = some statusCode := by
  unfold handleErrorResponse
  split_ifs <;> simp_all [GoError.kind, GoError.statusCode]

/-- C1 witness: the mapping evaluated at the failed status 500 with no
parsed body gives the generic API error carrying status 500. -/
theorem handleErrorResponse_kind_follows_status_witness :
    ¬ (200 ≤ 500 ∧ 500 ≤ 299) ∧
    (handleErrorResponse 500 none).kind = ErrorKind.api ∧
    (handleErrorResponse 500 none).statusCode = some 500 := by
  refine ⟨by decide, ?_⟩
  have h := handleErrorResponse_kind_follows_status 500 none (by decide)
  simpa using h

/-- C2 counterexample: a call receiving HTTP 429 with a parsed body whose
error field is "too many requests" yields a rate-limit error whose message
is the fixed string "Rate limit exceeded. Please slow down your requests.",
not the body's field value — refuting the claim that the typed error's
message equals the body's error field for all error kinds. -/
theorem rateLimit_message_ignores_body :
    (handleErrorResponse 429 (some { error := "too many requests" })).message =
      "Rate limit exceeded. Please slow down your requests." ∧
    (handleErrorResponse 429 (some { error := "too many requests" })).message ≠
      "too many requests" := by
  decide

/-- C2 (amended): only the generic API error — produced for failed statuses
other than 401, 404, 422 and 429 — takes its message from the non-empty
error field of the parsed body; the four specific kinds carry fixed
messages. -/
theorem apiError_message_prefers_body_error (statusCode : Nat)
    (errorResp : APIErrorResponse)
    (h401 : statusCode ≠ 401) (h404 : statusCode ≠ 404)
    (h422 : statusCode ≠ 422) (h429 : statusCode ≠ 429)
    (hbody : errorResp.error ≠ "") :
    handleErrorResponse statusCode (some errorResp) =
      .apiError errorResp.error statusCode := by
  simp [handleErrorResponse, h401, h404, h422, h429, hbody]

/-- C2 witness: HTTP 500 with body whose error field is "boom" yields the
generic API error with message "boom". -/
theorem apiError_message_prefers_body_error_witness :
    handleErrorResponse 500 (some { error := "boom" }) = .apiError "boom" 500 :=
  apiError_message_prefers_body_error 500 { error := "boom" }
    (by decide) (by decide) (by decide) (by decide) (by decide)

/-- C3 counterexample: a call receiving HTTP 401 with an absent body yields
the fixed message "Authentication failed. Check your API key.", not the
fallback string "HTTP 401: Unauthorized" — refuting the claim that every
failed call with an absent or unparsable body gets the fallback message. -/
theorem fallback_message_not_used_for_401 :
    (handleErrorResponse 401 none).message =
      "Authentication failed. Check your API key." ∧
    (handleErrorResponse 401 none).message ≠ "HTTP 401: Unauthorized" := by
  decide

/-- C3 (amended): for every failed call with status other than 401, 404,
422 and 429 whose error body is absent or unparsable, the resulting error
is the generic API error and its message is the fallback string
"HTTP code: reason phrase" built from the status code. -/
theorem apiError_fallback_message (statusCode : Nat)
    (h401 : statusCode ≠ 401) (h404 : statusCode ≠ 404)
    (h422 : statusCode ≠ 422) (h429 : statusCode ≠ 429) :
    handleErrorResponse statusCode none =
      .apiError ("HTTP " ++ toString statusCode ++ ": " ++ statusText statusCode)
        statusCode := by
  simp [handleErrorResponse, h401, h404, h422, h429]

/-- C3 witness: HTTP 500 with an absent or unparsable body yields the
generic API error with message "HTTP 500: Internal Server Error". -/
theorem apiError_fallback_message_witness :
    handleErrorResponse 500 none =
      .apiError "HTTP 500: Internal Server Error" 500 := by
  have h := apiError_fallback_message 500 (by decide) (by decide) (by decide) (by decide)
  rw [h]
  rfl

/-- C4 counterexample: a deadline-exceeded transport failure (no HTTP
response) surfaces from GetProductDetails as the HTTP library's own error
value, whose kind is neither the SDK's timeout error nor its network
error — refuting the claim that such failures surface as Timeout or
Network errors. -/
theorem transport_failure_not_mapped :
    resultErrorKind (GetProductDetails "012345678901" []
        (fun _ => .failure true "context deadline exceeded")) =
      some ErrorKind.transport ∧
    some ErrorKind.transport ≠ some ErrorKind.timeout ∧
    some ErrorKind.transport ≠ some ErrorKind.network := by
  refine ⟨rfl, by decide, by decide⟩

/-- C4 (amended): every transport-layer failure with no HTTP response is
returned from GetProductDetails unchanged as the underlying HTTP library's
error value, and no method outcome ever has the SDK's NetworkError or
TimeoutError kind — those two types are defined but never constructed. -/
theorem getProductDetails_transport_error_unwrapped (identifier : String)
    (format : List String)
    (transport : Request → TransportOutcome (APIResponse (List ProductDetails))) :
    (∀ deadlineExceeded message,
      GetProductDetails identifier format
          (fun _ => .failure deadlineExceeded message) =
        .error (.transportError deadlineExceeded message)) ∧
    resultErrorKind (GetProductDetails identifier format transport) ≠
      some ErrorKind.network ∧
    resultErrorKind (GetProductDetails identifier format transport) ≠
      some ErrorKind.timeout := by
  refine ⟨fun _ _ => rfl, ?_, ?_⟩ <;>
  · unfold GetProductDetails clientExecute
    cases transport (GetProductDetailsRequest identifier format) with
    | failure d m => simp [resultErrorKind, GoError.kind]
    | response s r eb =>
        by_cases hs : s > 399 <;>
          simp [hs, resultErrorKind, handleErrorResponse_kind_not_transportish]

/-- C5: for every malformed API key — empty or not matching the key
pattern — NewClient fails with the synchronous configuration error (a
plain error string, never a network error); construction in this model is
a pure function of the key and options, so no request is issued. -/
theorem NewClient_rejects_malformed_key (apiKey : String)
    (hmalformed : apiKey = "" ∨ apiKeyMatches apiKey = false) :
    ∃ msg, NewClient apiKey [] = .error (.errorString msg) ∧
      (GoError.errorString msg).kind ≠ ErrorKind.network := by
  by_cases he : apiKey = ""
  · exact ⟨"API key is required. Get one at https://shopsavvy.com/data",
      by subst he; rfl, by decide⟩
  · rcases hmalformed with h | h
    · exact absurd h he
    · exact ⟨"invalid API key format. API keys should start with ss_live_ or ss_test_",
        by simp [NewClient, he, h], by decide⟩

/-- C5 witness: the malformed key "bad_key" (wrong structure) is rejected
with the configuration error string. -/
theorem NewClient_rejects_malformed_key_witness :
    ∃ msg, NewClient "bad_key" [] = .error (.errorString msg) ∧
      (GoError.errorString msg).kind ≠ ErrorKind.network :=
  NewClient_rejects_malformed_key "bad_key" (Or.inr (by decide))

/-- C6 counterexample: the key "foo_live_abc123" — of the form
vendor_live_suffix with a non-empty alphanumeric suffix but with a vendor
part other than ss — is rejected by NewClient, refuting the claim that
every key of that shape is accepted. -/
theorem arbitrary_key_vendor_rejected :
    NewClient "foo_live_abc123" [] =
      .error (.errorString "invalid API key format. API keys should start with ss_live_ or ss_test_") := rfl

/-- Helper: character data of an ss_live_ key. -/
lemma data_ss_live (s : String) :
    ("ss_live_" ++ s).data =
      's' :: 's' :: '_' :: 'l' :: 'i' :: 'v' :: 'e' :: '_' :: s.data := by
  simp [String.data_append]

/-- Helper: character data of an ss_test_ key. -/
lemma data_ss_test (s : String) :
    ("ss_test_" ++ s).data =
      's' :: 's' :: '_' :: 't' :: 'e' :: 's' :: 't' :: '_' :: s.data := by
  simp [String.data_append]

/-- Helper: a non-empty all-alphanumeric tail satisfies the suffix part of
the key pattern. -/
lemma matchKeyTail_of_alnum (s : String) (hne : s.data ≠ [])
    (halnum : s.data.all isAlphanumChar = true) :
    matchKeyTail s.data = true := by
  unfold matchKeyTail
  cases hd : s.data with
  | nil => exact absurd hd hne
  | cons c cs => simp_all

/-- Helper: an ss_live_ key is never the empty string. -/
lemma key_ne_empty_live (s : String) : "ss_live_" ++ s ≠ "" := by
  intro h
  have hd := congrArg String.data h
  rw [data_ss_live s] at hd
  simp at hd

/-- Helper: an ss_test_ key is never the empty string. -/
lemma key_ne_empty_test (s : String) : "ss_test_" ++ s ≠ "" := by
  intro h
  have hd := congrArg String.data h
  rw [data_ss_test s] at hd
  simp at hd

/-- C6 (amended): for every key ss_live_suffix or ss_test_suffix with a
non-empty alphanumeric suffix — the vendor part of the pattern is fixed to
ss — NewClient succeeds and returns a client. -/
theorem NewClient_accepts_ss_keys (suffix : String)
    (hne : suffix.data ≠ []) (halnum : suffix.data.all isAlphanumChar = true) :
    (∃ client, NewClient ("ss_live_" ++ suffix) [] = .ok client) ∧
    (∃ client, NewClient ("ss_test_" ++ suffix) [] = .ok client) := by
  have htail := matchKeyTail_of_alnum suffix hne halnum
  have hlive : apiKeyMatches ("ss_live_" ++ suffix) = true := by
    unfold apiKeyMatches
    rw [data_ss_live]
    exact htail
  have htest : apiKeyMatches ("ss_test_" ++ suffix) = true := by
    unfold apiKeyMatches
    rw [data_ss_test]
    exact htail
  refine ⟨⟨{ config := { APIKey := "ss_live_" ++ suffix,
                         BaseURL := "https://api.shopsavvy.com/v1",
                         Timeout := 30 * timeSecond } }, ?_⟩,
          ⟨{ config := { APIKey := "ss_test_" ++ suffix,
                         BaseURL := "https://api.shopsavvy.com/v1",
                         Timeout := 30 * timeSecond } }, ?_⟩⟩
  · simp [NewClient, key_ne_empty_live suffix, hlive]
  · simp [NewClient, key_ne_empty_test suffix, htest]

/-- C6 witness: construction succeeds on the concrete keys
ss_live_abc123 and ss_test_abc123. -/
theorem NewClient_accepts_ss_keys_witness :
    (∃ client, NewClient "ss_live_abc123" [] = .ok client) ∧
    (∃ client, NewClient "ss_test_abc123" [] = .ok client) :=
  NewClient_accepts_ss_keys "abc123" (by decide) (by decide)

/-- C7 counterexample: constructing a client with the literal key
"prefix_live_abc123" and no options fails with the key-format
configuration error — refuting the claim that this construction
succeeds. -/
theorem spec_default_key_rejected :
    NewClient "prefix_live_abc123" [] =
      .error (.errorString "invalid API key format. API keys should start with ss_live_ or ss_test_") := rfl

/-- C7 (amended): constructing a client with the well-formed key
ss_live_abc123 and no option overrides succeeds, and the resulting client's
base URL is the production default and its request timeout is 30 seconds
(in nanoseconds of Go's time.Duration). -/
theorem NewClient_default_config :
    NewClient "ss_live_abc123" [] =
      .ok { config := { APIKey := "ss_live_abc123",
                        BaseURL := "https://api.shopsavvy.com/v1",
                        Timeout := 30 * timeSecond } } := rfl

/-- C8: each of the four batch methods sends exactly one identifier
parameter (ids in the query for the GET lookups, identifiers in the body
for scheduling and removal) whose value is the input identifiers joined
with commas in input order. -/
theorem batch_methods_join_identifiers (identifiers : List String)
    (format : List String) (retailer : String) (frequency : String)
    (retailerOpt : List String) :
    ((GetProductDetailsBatchRequest identifiers format).queryParams.lookup "ids" =
        some (String.intercalate "," identifiers) ∧
      (GetProductDetailsBatchRequest identifiers format).queryParams.countP
        (fun p => p.1 == "ids") = 1) ∧
    ((GetCurrentOffersBatchRequest identifiers retailer format).queryParams.lookup "ids" =
        some (String.intercalate "," identifiers) ∧
      (GetCurrentOffersBatchRequest identifiers retailer format).queryParams.countP
        (fun p => p.1 == "ids") = 1) ∧
    ((ScheduleProductMonitoringBatchRequest identifiers frequency retailerOpt).body.lookup
        "identifiers" = some (String.intercalate "," identifiers) ∧
      (ScheduleProductMonitoringBatchRequest identifiers frequency retailerOpt).body.countP
        (fun p => p.1 == "identifiers") = 1) ∧
    ((RemoveProductsFromScheduleRequest identifiers).body.lookup "identifiers" =
        some (String.intercalate "," identifiers) ∧
      (RemoveProductsFromScheduleRequest identifiers).body.countP
        (fun p => p.1 == "identifiers") = 1) := by
  refine ⟨⟨?_, ?_⟩, ⟨?_, ?_⟩, ⟨?_, ?_⟩, ⟨?_, ?_⟩⟩ <;>
    cases format <;> cases retailerOpt <;>
    simp [GetProductDetailsBatchRequest, GetCurrentOffersBatchRequest,
      ScheduleProductMonitoringBatchRequest, RemoveProductsFromScheduleRequest,
      formatParam, List.lookup, List.countP_cons]

/-- C9: the error mapping is deterministic — two calls of
handleErrorResponse with the same status code and the same (possibly
absent) parsed error body produce equal error values; the embedding of the
Go function as a pure Lean function witnesses that it is side-effect-free. -/
theorem handleErrorResponse_deterministic (s₁ s₂ : Nat)
    (b₁ b₂ : Option APIErrorResponse) (hs : s₁ = s₂) (hb : b₁ = b₂) :
    handleErrorResponse s₁ b₁ = handleErrorResponse s₂ b₂ := by
  rw [hs, hb]

/-- C9 witness: determinism instantiated at status 429 with an absent
body. -/
theorem handleErrorResponse_deterministic_witness :
    handleErrorResponse 429 none = handleErrorResponse 429 none :=
  handleErrorResponse_deterministic 429 429 none none rfl rfl

/-- C10: on every APIResponse value, CreditsUsed and CreditsRemaining
return 0 when the optional Meta object is absent, and the corresponding
Meta fields when it is present. -/
theorem credits_accessors (T : Type) (success : Bool) (data : T)
    (message : String) (meta : Option APIMeta) :
    (({ Success := success, Data := data, Message := message, Meta := meta } :
        APIResponse T).CreditsUsed =
      match meta with
      | some m => m.CreditsUsed
      | none => 0) ∧
    (({ Success := success, Data := data, Message := message, Meta := meta } :
        APIResponse T).CreditsRemaining =
      match meta with
      | some m => m.CreditsRemaining
      | none => 0) := by
  cases meta <;>
    simp [APIResponse.CreditsUsed, APIResponse.CreditsRemaining]

end ShopSavvy
